import Mathlib

/-!
Shallow embedding of the approval-gated execution engine (`src/agent` and
`src/webapp` of the repository) and proofs of the specification claims.

Strings are modelled as `List Char` (ASCII-faithful for the inputs the
policy manipulates); Python `dict` arguments as association lists;
each `with state.lock:` critical section of the run manager as one atomic
transition on an explicit `RunState` record.
-/

namespace AgentSpec

/-! ### Python string primitives (`str.strip`, `str.lower`, `str.split`) -/

/-- Python whitespace for `str.strip` / `str.split` / regex `\s` (ASCII part). -/
def isPySpace (c : Char) : Bool :=
  c == ' ' || c == '\t' || c == '\n' || c == '\r' || c == Char.ofNat 11 || c == Char.ofNat 12

/-- ASCII lowering, the effect of `str.lower` on the ASCII inputs involved. -/
def pyLowerChar (c : Char) : Char :=
  if 'A' ≤ c ∧ c ≤ 'Z' then Char.ofNat (c.toNat + 32) else c

/-- `str.lower` on a character list. -/
def pyLower (l : List Char) : List Char := l.map pyLowerChar

/-- `str.strip` : drop leading and trailing whitespace. -/
def pyStrip (l : List Char) : List Char :=
  ((l.dropWhile isPySpace).reverse.dropWhile isPySpace).reverse

/-- Worker for `str.split` with no separator: split on whitespace runs,
`acc` holds the current token reversed. -/
def pySplitGo (acc : List Char) : List Char → List (List Char)
  | [] => if acc.isEmpty then [] else [acc.reverse]
  | c :: cs =>
    if isPySpace c then
      if acc.isEmpty then pySplitGo [] cs else acc.reverse :: pySplitGo [] cs
    else pySplitGo (c :: acc) cs

/-- Python `str.split()` (whitespace separated, no empty tokens). -/
def pySplit (l : List Char) : List (List Char) := pySplitGo [] l

/-- `str.strip` on a `String`. -/
def pyStripS (s : String) : String := String.mk (pyStrip s.data)

/-- `str.lower` on a `String`. -/
def pyLowerS (s : String) : String := String.mk (pyLower s.data)

/-! ### A little regex engine, enough for `re.search` of the six
`BLOCKED_SHELL_PATTERNS` of `src/agent/policy.py` (literals, `\s+`,
character class, word boundary `\b`). -/

/-- Regex token: literal char, `\s+`, a character class, or `\b`. -/
inductive RTok where
  | lit (c : Char)
  | wsPlus
  | cls (cs : List Char)
  | wb
deriving DecidableEq, Repr

/-- Regex word character (`\w`, ASCII part): letters, digits, underscore. -/
def isWordChar (c : Char) : Bool :=
  ('a' ≤ c && c ≤ 'z') || ('A' ≤ c && c ≤ 'Z') || ('0' ≤ c && c ≤ '9') || c == '_'

/-- `\b` holds between `prev` and `next` iff exactly one side is a word char. -/
def atBoundary (prev next : Option Char) : Bool :=
  match prev, next with
  | none, none => false
  | none, some c => isWordChar c
  | some c, none => isWordChar c
  | some a, some b => isWordChar a != isWordChar b

/-- Match a token list against a prefix of `s`, knowing the char before `s`.
`fuel` only forces structural recursion; `s.length + toks.length + 1` always
suffices since every step consumes a char or a token. -/
def matchToks (fuel : Nat) (prev : Option Char) (toks : List RTok) (s : List Char) : Bool :=
  match fuel with
  | 0 => false
  | fuel + 1 =>
    match toks, s with
    | [], _ => true
    | .wb :: rest, _ => atBoundary prev s.head? && matchToks fuel prev rest s
    | .lit c :: rest, x :: xs => x == c && matchToks fuel (some x) rest xs
    | .cls cs :: rest, x :: xs => cs.contains x && matchToks fuel (some x) rest xs
    | .wsPlus :: rest, x :: xs =>
      isPySpace x && (matchToks fuel (some x) rest xs || matchToks fuel (some x) (.wsPlus :: rest) xs)
    | _ :: _, [] => false

/-- Try `matchToks` at every start position: Python `re.search` as a Bool. -/
def reSearchAux (prev : Option Char) (toks : List RTok) (s : List Char) : Bool :=
  matchToks (s.length + toks.length + 1) prev toks s ||
    match s with
    | [] => false
    | x :: xs => reSearchAux (some x) toks xs

/-- `re.search(pattern, s) is not None`. -/
def reSearch (toks : List RTok) (s : List Char) : Bool := reSearchAux none toks s

/-- Literal characters of a pattern as regex tokens. -/
def lits (s : String) : List RTok := s.data.map RTok.lit

/-- A blocked pattern: its compiled tokens and its source text (used in the
denial reason, as the f-string in `_evaluate_shell` interpolates the pattern). -/
structure BlockedPattern where
  toks : List RTok
  src : String
deriving Repr

/-- Pattern `\brm\s+-rf\b`. -/
def patRmRf : BlockedPattern :=
  ⟨[RTok.wb] ++ lits "rm" ++ [RTok.wsPlus] ++ lits "-rf" ++ [RTok.wb], "\\brm\\s+-rf\\b"⟩

/-- Pattern `\bdel\s+/[sq]\b`. -/
def patDel : BlockedPattern :=
  ⟨[RTok.wb] ++ lits "del" ++ [RTok.wsPlus] ++ lits "/" ++ [RTok.cls ['s', 'q'], RTok.wb],
   "\\bdel\\s+/[sq]\\b"⟩

/-- Pattern `\bformat\b`. -/
def patFormat : BlockedPattern := ⟨[RTok.wb] ++ lits "format" ++ [RTok.wb], "\\bformat\\b"⟩

/-- Pattern `\bshutdown\b`. -/
def patShutdown : BlockedPattern := ⟨[RTok.wb] ++ lits "shutdown" ++ [RTok.wb], "\\bshutdown\\b"⟩

/-- Pattern `\breboot\b`. -/
def patReboot : BlockedPattern := ⟨[RTok.wb] ++ lits "reboot" ++ [RTok.wb], "\\breboot\\b"⟩

/-- Pattern `\bmkfs\b`. -/
def patMkfs : BlockedPattern := ⟨[RTok.wb] ++ lits "mkfs" ++ [RTok.wb], "\\bmkfs\\b"⟩

/-- `BLOCKED_SHELL_PATTERNS` of `src/agent/policy.py`, in source order. -/
def BLOCKED_SHELL_PATTERNS : List BlockedPattern :=
  [patRmRf, patDel, patFormat, patShutdown, patReboot, patMkfs]

/-! ### Data model (`src/agent/types.py`) -/

/-- `RiskLevel` enum. -/
inductive RiskLevel where
  | low
  | medium
  | high
deriving DecidableEq, Repr

/-- `PolicyStatus` enum. -/
inductive PolicyStatus where
  | allow
  | deny
  | needsExtraConfirmation
deriving DecidableEq, Repr

/-- `PolicyDecision` model. -/
structure PolicyDecision where
  status : PolicyStatus
  reason : String
deriving DecidableEq, Repr

/-- `ActionProposal`: the `args` dict is modelled as a string-keyed
association list of string values (the policy reads `command` / `path`). -/
structure ActionProposal where
  toolName : String
  reason : String
  args : List (String × String)
  riskLevel : RiskLevel
deriving DecidableEq, Repr

/-- `ActionResult`; `payload` is reduced to the one key the shell tool
produces (`returncode`), `artifacts` are not used by any claim. -/
structure ActionResult where
  ok : Bool
  stdout : String := ""
  stderr : String := ""
  errorType : Option String := none
  returncode : Option Int := none
deriving DecidableEq, Repr

/-! ### Policy engine (`src/agent/policy.py`) -/

/-- `PolicyEngine` configuration: the resolved root directory as absolute
path segments, and the shell allowlist. -/
structure PolicyEngine where
  rootDir : List String
  allowedShellCommands : List (List Char)
deriving Repr

/-- `args.get("command", "")` as a char list. -/
def getCommandArg (args : List (String × String)) : List Char :=
  ((args.lookup "command").getD "").data

/-- `PolicyEngine._evaluate_shell`. The Python locals `command` (the stripped
command), `token` (lowered first whitespace token) and `lowered` are inlined. -/
def evaluateShell (eng : PolicyEngine) (p : ActionProposal) : PolicyDecision :=
  if (pyStrip (getCommandArg p.args)).isEmpty then
    ⟨.deny, "Shell command is empty."⟩
  else
    if pyLower ((pySplit (pyStrip (getCommandArg p.args))).headD []) ∈
        eng.allowedShellCommands then
      match BLOCKED_SHELL_PATTERNS.find?
          (fun bp => reSearch bp.toks (pyLower (pyStrip (getCommandArg p.args)))) with
      | some bp => ⟨.deny, "Blocked shell pattern matched: " ++ bp.src⟩
      | none =>
        if p.riskLevel = .high then
          ⟨.needsExtraConfirmation, "High-risk shell action requires extra confirmation."⟩
        else
          ⟨.allow, "Allowed shell action."⟩
    else
      ⟨.deny, "Shell command '" ++
        String.mk (pyLower ((pySplit (pyStrip (getCommandArg p.args))).headD [])) ++
        "' is not in allowlist."⟩

/-! Path arithmetic for `_evaluate_file` (POSIX model):
an absolute path is its list of segments from the filesystem root. -/

/-- Worker for splitting a path on `/`; `acc` holds the current segment
reversed. -/
def splitSlashGo (acc : List Char) : List Char → List String
  | [] => [String.mk acc.reverse]
  | c :: cs =>
    if c = '/' then String.mk acc.reverse :: splitSlashGo [] cs
    else splitSlashGo (c :: acc) cs

/-- Split a path string on the `/` separator (keeping empty segments,
as `str.split("/")` does). -/
def splitSlash (s : String) : List String := splitSlashGo [] s.data

/-- Does the path start with the separator, i.e. is it absolute (POSIX)? -/
def startsWithSlash (s : String) : Bool :=
  match s.data with
  | [] => false
  | c :: _ => c == '/'

/-- `os.path.join(root, p)` followed by splitting on the separator:
an absolute `p` discards the root. Segments are not yet normalized. -/
def joinSegs (root : List String) (p : String) : List String :=
  if startsWithSlash p then splitSlash p else root ++ splitSlash p

/-- Lexical core of `Path.resolve()`: drop `""` and `"."`, let `".."` pop
(staying at the filesystem root when already there). -/
def resolveSegs (segs : List String) : List String :=
  segs.foldl
    (fun acc seg =>
      if seg = "" ∨ seg = "." then acc
      else if seg = ".." then acc.dropLast
      else acc ++ [seg])
    []

/-- `Path(os.path.join(root, p)).resolve()` for an already-resolved root. -/
def resolvePath (root : List String) (p : String) : List String :=
  resolveSegs (joinSegs root p)

/-- `path.relative_to(root)` succeeds iff `root` is a prefix of `path`
(both resolved absolute), i.e. path is the root or a descendant. -/
def isUnderRoot (root path : List String) : Bool :=
  root.isPrefixOf path

/-- `PolicyEngine._evaluate_file`; `args.get("path")` with Python falsiness
(`None` or the empty string both fail the `if not path_value` guard). -/
def evaluateFile (eng : PolicyEngine) (p : ActionProposal) : PolicyDecision :=
  match p.args.lookup "path" with
  | none => ⟨.deny, "File action missing path."⟩
  | some pv =>
    if pv = "" then ⟨.deny, "File action missing path."⟩
    else
      if isUnderRoot eng.rootDir (resolvePath eng.rootDir pv) then
        if p.riskLevel = .high then
          ⟨.needsExtraConfirmation, "High-risk file action requires extra confirmation."⟩
        else
          ⟨.allow, "Allowed file action."⟩
      else
        ⟨.deny, "Path out of scope: " ++
          String.intercalate "/" (resolvePath eng.rootDir pv)⟩

/-- `PolicyEngine.evaluate`. -/
def PolicyEngine.evaluate (eng : PolicyEngine) (p : ActionProposal) : PolicyDecision :=
  if p.toolName = "shell" then evaluateShell eng p
  else if p.toolName = "file" then evaluateFile eng p
  else if p.toolName = "web" then
    if p.riskLevel = .high then
      ⟨.needsExtraConfirmation, "High-risk web action requires extra confirmation."⟩
    else ⟨.allow, "Allowed web action."⟩
  else ⟨.deny, "Unknown tool."⟩

/-! ### Retry loop (`Orchestrator._execute_with_retries`, `_is_retryable`) -/

/-- `Orchestrator._is_retryable`: the fixed retryable error-tag set. -/
def isRetryable (errorType : Option String) : Bool :=
  errorType == some "timeout" || errorType == some "web_error" ||
    errorType == some "shell_error" || errorType == some "exception"

/-- The `while` loop of `_execute_with_retries`. `exec i` is the result of
the `i`-th call of `_execute_tool` for these arguments (the tool and
environment are the oracle), `idx` the number of retries so far, `last` the
last result (`= exec idx`), and the remaining budget `max_retries - retries`
drives the recursion. Returns (retries performed, final result). -/
def retryGo (exec : Nat → ActionResult) (idx : Nat) (last : ActionResult) :
    Nat → Nat × ActionResult
  | 0 => (idx, last)
  | budget + 1 =>
    if (!last.ok) && isRetryable last.errorType then
      retryGo exec (idx + 1) (exec (idx + 1)) budget
    else (idx, last)

/-- `Orchestrator._execute_with_retries`: first execution, then the retry
loop. Returns (retries performed, final result); the number of execution
attempts is the first component plus one. -/
def executeWithRetries (exec : Nat → ActionResult) (maxRetries : Nat) : Nat × ActionResult :=
  retryGo exec 0 (exec 0) maxRetries

/-! ### Shell tool (`src/tools/shell_tool.py`) -/

/-- Scanner state for `shlex.split(·, posix=False)` with whitespace
splitting: finished tokens, current token (reversed), whether a token is
open, and the pending quote character. -/
structure ShlexState where
  toks : List (List Char)
  cur : List Char
  inTok : Bool
  quote : Option Char
deriving Repr

/-- One character of non-POSIX `shlex` scanning: quotes group and are kept
in the token, whitespace outside quotes separates tokens. -/
def shlexStep (st : ShlexState) (c : Char) : ShlexState :=
  match st.quote with
  | some q =>
    if c = q then { st with cur := c :: st.cur, quote := none }
    else { st with cur := c :: st.cur }
  | none =>
    if isPySpace c then
      if st.inTok then
        { st with toks := st.toks ++ [st.cur.reverse], cur := [], inTok := false }
      else st
    else if c = '"' ∨ c = '\'' then
      { st with cur := c :: st.cur, inTok := true, quote := some c }
    else { st with cur := c :: st.cur, inTok := true }

/-- `shlex.split(command, posix=False)`; `none` models the `ValueError`
raised on an unclosed quotation. -/
def shlexSplitNonPosix (s : List Char) : Option (List (List Char)) :=
  match s.foldl shlexStep ⟨[], [], false, none⟩ with
  | ⟨toks, cur, inTok, none⟩ => some (if inTok then toks ++ [cur.reverse] else toks)
  | ⟨_, _, _, some _⟩ => none

/-- `ShellTool` configuration. -/
structure ShellToolCfg where
  cwd : String
  allowedCommands : List (List Char)

/-- Outcome of `subprocess.run`, the external effect: completion with a
return code and captured output, `TimeoutExpired`, or another exception. -/
inductive SubprocessOutcome where
  | completed (returncode : Int) (stdout stderr : String)
  | timedOut
  | raised (msg : String)

/-- Python slice `s[-n:]`. -/
def pyTakeRight (n : Nat) (s : String) : String :=
  String.mk (s.data.drop (s.data.length - n))

/-- `ShellTool.run` with the validated argument shape (`command` string;
`timeout_seconds` only reaches the subprocess call and is folded into the
`subproc` oracle). A `command` failing the `min_length=1` validation raises
`ValidationError`, caught by the final `except` as `shell_error`. -/
def shellToolRun (tool : ShellToolCfg) (command : String)
    (subproc : List (List Char) → SubprocessOutcome) : ActionResult :=
  if command.data.isEmpty then
    ⟨false, "", "1 validation error for ShellArgs", some "shell_error", none⟩
  else
    match shlexSplitNonPosix command.data with
    | none => ⟨false, "", "No closing quotation", some "shell_error", none⟩
    | some [] => ⟨false, "", "Empty command", some "invalid_args", none⟩
    | some (p0 :: rest) =>
      if pyLower p0 ∈ tool.allowedCommands then
        match subproc (p0 :: rest) with
        | .completed rc out err =>
          ⟨rc == 0, pyTakeRight 8000 out, pyTakeRight 8000 err, none, some rc⟩
        | .timedOut => ⟨false, "", "Command timed out", some "timeout", none⟩
        | .raised msg => ⟨false, "", msg, some "shell_error", none⟩
      else
        ⟨false, "", "Command '" ++ String.mk (pyLower p0) ++ "' not allowed",
         some "policy_denied", none⟩

/-! ### Step loop (`Orchestrator.run`, `src/agent/orchestrator.py`)

The oracle is a stream of decisions indexed by step number; the interactive
`input_fn` is a stream of raw answers indexed by the number of approval
prompts issued so far (each call consumes the next answer); the tools and
environment are a per-step stream of execution results. Session messages
and the best-effort JSONL log (which never affects control flow) are not
modelled; session events are recorded as tags. -/

/-- One oracle decision: a final answer, an action proposal, or an
`action`-kind decision with a missing payload. -/
inductive ModelStep where
  | final (text : String)
  | action (p : ActionProposal)
  | malformed
deriving DecidableEq, Repr

/-- Session events appended by the step loop. -/
inductive EventTag where
  | modelMetrics
  | errorEv (msg : String)
  | approvalDenied (info : String)
  | policyEv (d : PolicyDecision)
  | approvalDeniedExtra (tool : String)
  | toolResult (tool : String) (r : ActionResult)
  | stopped
deriving DecidableEq, Repr

/-- `RunConfig` (the fields that affect control flow). -/
structure RunCfg where
  maxSteps : Nat
  approvalMode : String
  maxRetries : Nat
deriving DecidableEq, Repr

/-- Mutable state threaded through the loop: the session-wide always-deny
set, the session events, the number of approval prompts issued, and the
number of `_execute_tool` calls made. -/
structure LoopState where
  alwaysDeny : List String
  events : List EventTag
  gateCalls : Nat
  executed : Nat
deriving DecidableEq, Repr

/-- `ans in {"y", "yes"}` on the normalized answer. -/
def isYes (a : String) : Bool := a == "y" || a == "yes"

/-- Continue or terminate with the run's result text. -/
inductive StepResult where
  | done (text : String)
  | next
deriving DecidableEq, Repr

/-- Instrumentation of one loop iteration: whether the proposal survived the
always-deny set and the policy verdict, whether the initial approval gate
was invoked and with which normalized answer, the events this step
appended, and how many tool executions it performed. -/
structure StepRecord where
  stepIdx : Nat
  notDenied : Bool
  gateInvoked : Bool
  initialAnswer : Option String
  stepEvents : List EventTag
  execDelta : Nat
deriving DecidableEq, Repr

/-- One iteration of `Orchestrator.run`'s `for` body (lines 52-118),
returning its instrumentation record, continue/terminate, and the updated
state. `answers n` is the raw reply to the `n`-th approval prompt of the
run; `exec n` the result of this step's `n`-th `_execute_tool` call. -/
def runStep (pe : PolicyEngine) (cfg : RunCfg) (answers : Nat → String)
    (exec : Nat → ActionResult) (stepIdx : Nat) (ms : ModelStep) (st : LoopState) :
    StepRecord × StepResult × LoopState :=
  match ms with
  | .final t =>
    (⟨stepIdx, false, false, none, [.modelMetrics], 0⟩, .done t,
     { st with events := st.events ++ [.modelMetrics] })
  | .malformed =>
    (⟨stepIdx, false, false, none,
      [.modelMetrics, .errorEv "Model returned action kind without action payload."], 0⟩,
     .done "Model returned action kind without action payload.",
     { st with events := st.events ++
        [.modelMetrics, .errorEv "Model returned action kind without action payload."] })
  | .action p =>
    if p.toolName ∈ st.alwaysDeny then
      (⟨stepIdx, false, false, none,
        [.modelMetrics,
         .approvalDenied ("Tool '" ++ p.toolName ++ "' is always denied for this session.")], 0⟩,
       .next,
       { st with events := st.events ++
          [.modelMetrics,
           .approvalDenied ("Tool '" ++ p.toolName ++ "' is always denied for this session.")] })
    else
      if (pe.evaluate p).status = .deny then
        (⟨stepIdx, false, false, none, [.modelMetrics, .policyEv (pe.evaluate p)], 0⟩,
         .next,
         { st with events := st.events ++ [.modelMetrics, .policyEv (pe.evaluate p)] })
      else
        if pyLowerS (pyStripS (answers st.gateCalls)) = "ad" then
          (⟨stepIdx, true, true, some (pyLowerS (pyStripS (answers st.gateCalls))),
            [.modelMetrics, .policyEv (pe.evaluate p), .approvalDenied p.toolName], 0⟩,
           .next,
           { st with
              alwaysDeny := p.toolName :: st.alwaysDeny,
              events := st.events ++
                [.modelMetrics, .policyEv (pe.evaluate p), .approvalDenied p.toolName],
              gateCalls := st.gateCalls + 1 })
        else if isYes (pyLowerS (pyStripS (answers st.gateCalls))) then
          if (pe.evaluate p).status = .needsExtraConfirmation ∨ p.riskLevel = .high
              ∨ cfg.approvalMode = "strict" then
            if pyLowerS (pyStripS (answers (st.gateCalls + 1))) = "ad" then
              (⟨stepIdx, true, true, some (pyLowerS (pyStripS (answers st.gateCalls))),
                [.modelMetrics, .policyEv (pe.evaluate p), .approvalDeniedExtra p.toolName], 0⟩,
               .next,
               { st with
                  alwaysDeny := p.toolName :: st.alwaysDeny,
                  events := st.events ++
                    [.modelMetrics, .policyEv (pe.evaluate p), .approvalDeniedExtra p.toolName],
                  gateCalls := st.gateCalls + 2 })
            else if isYes (pyLowerS (pyStripS (answers (st.gateCalls + 1)))) then
              (⟨stepIdx, true, true, some (pyLowerS (pyStripS (answers st.gateCalls))),
                [.modelMetrics, .policyEv (pe.evaluate p),
                 .toolResult p.toolName (executeWithRetries exec cfg.maxRetries).snd],
                (executeWithRetries exec cfg.maxRetries).fst + 1⟩,
               .next,
               { st with
                  events := st.events ++
                    [.modelMetrics, .policyEv (pe.evaluate p),
                     .toolResult p.toolName (executeWithRetries exec cfg.maxRetries).snd],
                  gateCalls := st.gateCalls + 2,
                  executed := st.executed + ((executeWithRetries exec cfg.maxRetries).fst + 1) })
            else
              (⟨stepIdx, true, true, some (pyLowerS (pyStripS (answers st.gateCalls))),
                [.modelMetrics, .policyEv (pe.evaluate p), .approvalDeniedExtra p.toolName], 0⟩,
               .next,
               { st with
                  events := st.events ++
                    [.modelMetrics, .policyEv (pe.evaluate p), .approvalDeniedExtra p.toolName],
                  gateCalls := st.gateCalls + 2 })
          else
            (⟨stepIdx, true, true, some (pyLowerS (pyStripS (answers st.gateCalls))),
              [.modelMetrics, .policyEv (pe.evaluate p),
               .toolResult p.toolName (executeWithRetries exec cfg.maxRetries).snd],
              (executeWithRetries exec cfg.maxRetries).fst + 1⟩,
             .next,
             { st with
                events := st.events ++
                  [.modelMetrics, .policyEv (pe.evaluate p),
                   .toolResult p.toolName (executeWithRetries exec cfg.maxRetries).snd],
                gateCalls := st.gateCalls + 1,
                executed := st.executed + ((executeWithRetries exec cfg.maxRetries).fst + 1) })
        else
          (⟨stepIdx, true, true, some (pyLowerS (pyStripS (answers st.gateCalls))),
            [.modelMetrics, .policyEv (pe.evaluate p), .approvalDenied p.toolName], 0⟩,
           .next,
           { st with
              events := st.events ++
                [.modelMetrics, .policyEv (pe.evaluate p), .approvalDenied p.toolName],
              gateCalls := st.gateCalls + 1 })

/-- The `for step in range(1, max_steps + 1)` loop, by remaining steps;
exhausting the budget yields the synthesized stopped message. Returns the
run's result text, the final state, and the per-step records. -/
def runLoopGo (pe : PolicyEngine) (cfg : RunCfg) (oracle : Nat → ModelStep)
    (answers : Nat → String) (exec : Nat → Nat → ActionResult) :
    Nat → Nat → LoopState → String × LoopState × List StepRecord
  | 0, _, st =>
    ("Stopped: reached max_steps=" ++ toString cfg.maxSteps ++ ".",
     { st with events := st.events ++ [.stopped] }, [])
  | remaining + 1, stepIdx, st =>
    match runStep pe cfg answers (exec stepIdx) stepIdx (oracle stepIdx) st with
    | (rec, .done t, st') => (t, st', [rec])
    | (rec, .next, st') =>
      ((runLoopGo pe cfg oracle answers exec remaining (stepIdx + 1) st').1,
       (runLoopGo pe cfg oracle answers exec remaining (stepIdx + 1) st').2.1,
       rec :: (runLoopGo pe cfg oracle answers exec remaining (stepIdx + 1) st').2.2)

/-- `Orchestrator.run` over fresh per-run state. -/
def orchestratorRun (pe : PolicyEngine) (cfg : RunCfg) (oracle : Nat → ModelStep)
    (answers : Nat → String) (exec : Nat → Nat → ActionResult) :
    String × LoopState × List StepRecord :=
  runLoopGo pe cfg oracle answers exec cfg.maxSteps 1 ⟨[], [], 0, 0⟩

/-- Concrete scenario for the step-loop claims: the oracle proposes an
allowlisted low-risk shell action at step 1 and finishes at step 2; every
approval prompt is answered `n`. -/
def demoOracle : Nat → ModelStep := fun i =>
  if i = 1 then .action ⟨"shell", "list dir", [("command", "dir")], .low⟩
  else .final "done"

/-- Policy engine of the scenario: root `/work`, allowlist `{dir}`. -/
def demoPe : PolicyEngine := ⟨["work"], ["dir".data]⟩

/-- Loop configuration of the scenario. -/
def demoCfg : RunCfg := ⟨3, "normal", 1⟩

/-- Every prompt is answered `n`. -/
def demoAnswers : Nat → String := fun _ => "n"

/-- Tool results of the scenario (never reached). -/
def demoExec : Nat → Nat → ActionResult := fun _ _ => ⟨true, "ok", "", none, none⟩

/-- The scenario's run. -/
def demoRun : String × LoopState × List StepRecord :=
  orchestratorRun demoPe demoCfg demoOracle demoAnswers demoExec

/-- The record of the scenario's first step: gate invoked, answer `n`,
denial event, no execution. -/
def demoRec : StepRecord :=
  ⟨1, true, true, some "n",
   [.modelMetrics, .policyEv ⟨.allow, "Allowed shell action."⟩, .approvalDenied "shell"], 0⟩

/-! ### Run manager (`src/webapp/run_manager.py`)

Each `with state.lock:` block is one atomic transition on `RunState`
(`wait_for` releases the lock, so `_wait_for_approval` is two critical
sections: registration, and resolution by answer or timeout). The ghost
field `phase` records the worker's control point — before/after its wait,
or terminated — and constrains which worker transitions can fire;
`approve` (served on a request thread) can fire at any time. -/

/-- `PendingApproval` model. -/
structure PendingApproval where
  requestId : String
  toolName : String
  reason : String
  args : List (String × String)
  stage : String
deriving DecidableEq, Repr

/-- The events `_run_worker`, `approve` and `_wait_for_approval` append. -/
inductive WebEvent where
  | approvalRequested (req : PendingApproval)
  | approvalReceived (decision : String)
  | approvalTimeout (requestId : String)
  | completedRun (finalText : String)
  | failedRun (error : String)
deriving DecidableEq, Repr

/-- Worker control point: between waits, inside `wait_for`, or terminated. -/
inductive WorkerPhase where
  | idle
  | waiting
  | done
deriving DecidableEq, Repr

/-- `RunState` (mutable fields plus the ghost worker phase). -/
structure RunState where
  runId : String
  status : String
  finalText : String
  error : String
  pending : Option PendingApproval
  approvalAnswer : Option String
  events : List WebEvent
  phase : WorkerPhase
deriving DecidableEq, Repr

/-- A fresh `RunState` as built by `create_run`. -/
def initState (rid : String) : RunState :=
  ⟨rid, "running", "", "", none, none, [], .idle⟩

/-- The fixed `timeout_seconds` of `_wait_for_approval`. -/
def waitTimeoutSeconds : Nat := 3600

/-- First critical section of `_wait_for_approval`: deposit the request,
clear any previous answer, transition to `waiting_approval`. -/
def registerApproval (s : RunState) (req : PendingApproval) : RunState :=
  { s with pending := some req, approvalAnswer := none, status := "waiting_approval",
           events := s.events ++ [.approvalRequested req], phase := .waiting }

/-- `RunManager.approve`'s critical section on a located run: reject a
missing or mismatched pending request without touching the state; otherwise
deposit the normalized decision and eagerly set the status back to running. -/
def approveOp (s : RunState) (requestId decision : String) : Bool × RunState :=
  match s.pending with
  | none => (false, s)
  | some p =>
    if p.requestId ≠ requestId then (false, s)
    else
      (true,
       { s with approvalAnswer := some (pyLowerS (pyStripS decision)),
                status := "running",
                events := s.events ++ [.approvalReceived (pyLowerS (pyStripS decision))] })

/-- The request id of the registered request (`req.request_id` in the
timeout branch; equals the pending one while the worker waits). -/
def pendingRequestId (s : RunState) : String :=
  match s.pending with
  | some p => p.requestId
  | none => ""

/-- Resolution of the wait on timeout (`wait_for` returned false): record
the timeout event, clear `pending`, restore `running`, return the deny
decision `"n"`. -/
def timeoutResolve (s : RunState) : String × RunState :=
  ("n",
   { s with events := s.events ++ [.approvalTimeout (pendingRequestId s)],
            pending := none, status := "running", phase := .idle })

/-- Resolution of the wait on a deposited answer: return
`approval_answer or "n"` (Python falsiness: an empty deposited string also
yields `"n"`) and clear `pending` — `approval_answer` is left as is. -/
def answerResolve (s : RunState) : String × RunState :=
  (match s.approvalAnswer with
   | some a => if a = "" then "n" else a
   | none => "n",
   { s with pending := none, phase := .idle })

/-- Worker epilogue on a normal Step Loop return. -/
def completeOp (s : RunState) (text : String) : RunState :=
  { s with finalText := text, status := "completed",
           events := s.events ++ [.completedRun text], pending := none, phase := .done }

/-- Worker `except` branch: an escaped exception marks the run failed. -/
def failOp (s : RunState) (err : String) : RunState :=
  { s with status := "failed", error := err,
           events := s.events ++ [.failedRun err], phase := .done }

/-- The states of a managed run reachable by interleaving the worker's
transitions (constrained by its phase and the `wait_for` predicate) with
externally-served `approve` calls. -/
inductive Reachable : RunState → Prop where
  | init (rid : String) : Reachable (initState rid)
  | register (s : RunState) (req : PendingApproval) :
      Reachable s → s.phase = .idle → Reachable (registerApproval s req)
  | approve (s : RunState) (requestId decision : String) :
      Reachable s → Reachable (approveOp s requestId decision).snd
  | timeout (s : RunState) :
      Reachable s → s.phase = .waiting → s.approvalAnswer = none →
      Reachable (timeoutResolve s).snd
  | answered (s : RunState) :
      Reachable s → s.phase = .waiting → s.approvalAnswer ≠ none →
      Reachable (answerResolve s).snd
  | complete (s : RunState) (text : String) :
      Reachable s → s.phase = .idle → Reachable (completeOp s text)
  | fail (s : RunState) (err : String) :
      Reachable s → s.phase = .idle → Reachable (failOp s err)

/-- The phase-indexed state invariant every reachable `RunState` satisfies. -/
def RunInv (s : RunState) : Prop :=
  (s.phase = .idle → s.pending = none ∧ s.status = "running")
  ∧ (s.phase = .waiting → s.pending ≠ none ∧
      ((s.approvalAnswer = none ∧ s.status = "waiting_approval")
        ∨ (s.approvalAnswer ≠ none ∧ s.status = "running")))
  ∧ (s.phase = .done → s.pending = none ∧ (s.status = "completed" ∨ s.status = "failed"))

/-- Replace the value of the first binding of `key` (the manager's run map
update; Python mutates the stored `RunState` in place). -/
def updateFirst : List (String × RunState) → String → RunState → List (String × RunState)
  | [], _, _ => []
  | (k, v) :: rest, key, nv =>
    if k = key then (k, nv) :: rest else (k, v) :: updateFirst rest key nv

/-- `RunManager.approve`: locate the run (`get_run`), then run the
`approve` critical section on its state. -/
def managerApprove (runs : List (String × RunState)) (runId requestId decision : String) :
    Bool × List (String × RunState) :=
  match runs.lookup runId with
  | none => (false, runs)
  | some s =>
    ((approveOp s requestId decision).fst,
     updateFirst runs runId (approveOp s requestId decision).snd)

/-! ### Worker invocation of the Step Loop (`RunManager._run_worker`) -/

/-- The parameters accepted by `Orchestrator.run`
(`src/agent/orchestrator.py` line 50): `self` aside, `session`, `cfg` and
the optional `input_fn`. -/
def orchestratorRunParamNames : List String := ["session", "cfg", "input_fn"]

/-- The keyword argument `_run_worker` passes to `orchestrator.run`
(`src/webapp/run_manager.py` line 163). -/
def workerApproveKeyword : String := "structured_approve_fn"

/-- Python call semantics: a keyword argument naming no parameter of the
callee raises `TypeError` at the call. -/
def workerCallRaisesTypeError : Bool :=
  !(orchestratorRunParamNames.contains workerApproveKeyword)

/-- `_run_worker` after setup: it invokes `orchestrator.run` with the
`structured_approve_fn` keyword; if that call raises, the `except` branch
marks the run failed, otherwise the run completes with the loop's final
text (`loopFinal` stands for the Step Loop's return value). -/
def runWorker (s : RunState) (loopFinal : String) : RunState :=
  if workerCallRaisesTypeError then
    failOp s "Orchestrator.run() got an unexpected keyword argument 'structured_approve_fn'"
  else
    completeOp s loopFinal

/-- Concrete pending request used by the run-manager scenarios. -/
def reqA : PendingApproval := ⟨"rid-1", "shell", "list files", [("command", "ls")], "initial"⟩

/-- A run that registered `reqA` and is waiting. -/
def stateWaiting : RunState := registerApproval (initState "run-1") reqA

/-- `stateWaiting` right after a matching `approve` deposited `y` — the
worker has not resumed yet. -/
def stateApproved : RunState := (approveOp stateWaiting "rid-1" "y").snd

/-- `stateApproved` after the worker consumed the answer. -/
def stateResumed : RunState := (answerResolve stateApproved).snd

/-! ## Theorems -/

/-- Invariants of the retry loop, proved once over the budget and shared by
the claims about retries: the retry count is bounded by the remaining
budget, the final result is the last execution's, every execution before
the last followed a failing retryable result, and a non-retryable `last`
stops the loop at once. -/
theorem retryGo_spec (exec : Nat → ActionResult) :
    ∀ (budget k : Nat),
      k ≤ (retryGo exec k (exec k) budget).fst
      ∧ (retryGo exec k (exec k) budget).fst ≤ k + budget
      ∧ (retryGo exec k (exec k) budget).snd = exec (retryGo exec k (exec k) budget).fst
      ∧ (∀ i, k ≤ i → i < (retryGo exec k (exec k) budget).fst →
          (exec i).ok = false ∧ isRetryable (exec i).errorType = true)
      ∧ (((!(exec k).ok) && isRetryable (exec k).errorType) = false →
          (retryGo exec k (exec k) budget).fst = k) := by
  intro budget
  induction budget with
  | zero =>
    intro k
    refine ⟨le_refl _, by simp [retryGo], rfl, ?_, fun _ => rfl⟩
    intro i hki hik
    simp only [retryGo] at hik
    omega
  | succ b ih =>
    intro k
    by_cases hc : ((!(exec k).ok) && isRetryable (exec k).errorType) = true
    · have hstep : retryGo exec k (exec k) (b + 1) = retryGo exec (k + 1) (exec (k + 1)) b := by
        simp only [retryGo, if_pos hc]
      obtain ⟨h1, h2, h3, h4, h5⟩ := ih (k + 1)
      rw [hstep]
      obtain ⟨hok, hretry⟩ : (exec k).ok = false ∧ isRetryable (exec k).errorType = true := by
        constructor
        · cases hok' : (exec k).ok
          · rfl
          · rw [hok'] at hc; simp at hc
        · cases hr : isRetryable (exec k).errorType
          · rw [hr] at hc; simp at hc
          · rfl
      refine ⟨by omega, by omega, h3, ?_, ?_⟩
      · intro i hki hik
        rcases Nat.eq_or_lt_of_le hki with heq | hlt
        · exact heq ▸ ⟨hok, hretry⟩
        · exact h4 i hlt hik
      · intro hfalse
        rw [hc] at hfalse
        exact absurd hfalse (by simp)
    · have hcf : ((!(exec k).ok) && isRetryable (exec k).errorType) = false :=
        Bool.eq_false_iff.mpr hc
      have hstep : retryGo exec k (exec k) (b + 1) = (k, exec k) := by
        simp only [retryGo, if_neg hc]
      rw [hstep]
      refine ⟨le_refl _, by omega, rfl, ?_, fun _ => rfl⟩
      intro i hki hik
      omega

/-- Every reachable managed-run state satisfies the phase-indexed invariant:
an idle worker leaves no pending request and status `running`; a waiting
worker has a pending request, with status `waiting_approval` before an
answer is deposited and `running` after; a terminated worker has no pending
request and status `completed` or `failed`. -/
theorem reachable_runInv (s : RunState) (h : Reachable s) : RunInv s := by
  induction h with
  | init rid =>
    refine ⟨fun _ => ⟨rfl, rfl⟩, fun hp => ?_, fun hp => ?_⟩ <;> simp [initState] at hp
  | register s req hs hidle ih =>
    refine ⟨fun hp => ?_,
      fun _ => ⟨by simp [registerApproval], Or.inl ⟨rfl, rfl⟩⟩, fun hp => ?_⟩ <;>
      simp [registerApproval] at hp
  | approve s requestId decision hs ih =>
    obtain ⟨i1, i2, i3⟩ := ih
    cases hp : s.pending with
    | none =>
      have hid : (approveOp s requestId decision).snd = s := by
        simp [approveOp, hp]
      rw [hid]; exact ⟨i1, i2, i3⟩
    | some p =>
      by_cases hrid : p.requestId ≠ requestId
      · have hid : (approveOp s requestId decision).snd = s := by
          simp [approveOp, hp, hrid]
        rw [hid]; exact ⟨i1, i2, i3⟩
      · have hid : (approveOp s requestId decision).snd =
            { s with approvalAnswer := some (pyLowerS (pyStripS decision)),
                     status := "running",
                     events := s.events ++ [.approvalReceived (pyLowerS (pyStripS decision))] } := by
          simp [approveOp, hp, hrid]
        rw [hid]
        cases hph : s.phase with
        | idle => exact absurd ((i1 hph).1.symm.trans hp) (by simp)
        | done => exact absurd ((i3 hph).1.symm.trans hp) (by simp)
        | waiting =>
          refine ⟨fun hc => ?_, fun _ => ⟨by simp [hp], Or.inr ⟨by simp, rfl⟩⟩,
            fun hc => ?_⟩ <;> simp only [hph] at hc <;> cases hc
  | timeout s hs hph hans ih =>
    refine ⟨fun _ => ⟨rfl, rfl⟩, fun hc => ?_, fun hc => ?_⟩ <;>
      simp [timeoutResolve] at hc
  | answered s hs hph hans ih =>
    obtain ⟨i1, i2, i3⟩ := ih
    obtain ⟨hpend, hdisj⟩ := i2 hph
    rcases hdisj with ⟨ha, _⟩ | ⟨_, hst⟩
    · exact absurd ha hans
    · refine ⟨fun _ => ⟨rfl, hst⟩, fun hc => ?_, fun hc => ?_⟩ <;>
        simp [answerResolve] at hc
  | complete s text hs hidle ih =>
    refine ⟨fun hc => ?_, fun hc => ?_, fun _ => ⟨rfl, Or.inl rfl⟩⟩ <;>
      simp [completeOp] at hc
  | fail s err hs hidle ih =>
    obtain ⟨i1, _, _⟩ := ih
    refine ⟨fun hc => ?_, fun hc => ?_, fun _ => ⟨(i1 hidle).1, Or.inr rfl⟩⟩ <;>
      simp [failOp] at hc

/-- Per-iteration facts shared by the step-loop claims: a proposal that
survives the always-deny set and the policy verdict reaches the initial
approval gate; a negative initial answer performs no execution and appends
a denial event; and the step's execution count grows by exactly the
record's `execDelta`. -/
theorem runStep_record_spec (pe : PolicyEngine) (cfg : RunCfg) (answers : Nat → String)
    (exec : Nat → ActionResult) (stepIdx : Nat) (ms : ModelStep) (st : LoopState) :
    ((runStep pe cfg answers exec stepIdx ms st).1.notDenied = true →
        (runStep pe cfg answers exec stepIdx ms st).1.gateInvoked = true)
    ∧ (∀ a, (runStep pe cfg answers exec stepIdx ms st).1.initialAnswer = some a →
        isYes a = false →
        (runStep pe cfg answers exec stepIdx ms st).1.execDelta = 0
        ∧ ∃ t, EventTag.approvalDenied t ∈
            (runStep pe cfg answers exec stepIdx ms st).1.stepEvents)
    ∧ (runStep pe cfg answers exec stepIdx ms st).2.2.executed =
        st.executed + (runStep pe cfg answers exec stepIdx ms st).1.execDelta := by
  cases ms with
  | final t => simp [runStep]
  | malformed => simp [runStep]
  | action p =>
    by_cases h1 : p.toolName ∈ st.alwaysDeny
    · simp [runStep, h1]
    · by_cases h2 : (pe.evaluate p).status = PolicyStatus.deny
      · simp [runStep, h1, h2]
      · by_cases h3 : pyLowerS (pyStripS (answers st.gateCalls)) = "ad"
        · simp [runStep, h1, h2, h3]
        · by_cases h4 : isYes (pyLowerS (pyStripS (answers st.gateCalls))) = true
          · by_cases h5 : (pe.evaluate p).status = PolicyStatus.needsExtraConfirmation
                ∨ p.riskLevel = RiskLevel.high ∨ cfg.approvalMode = "strict"
            · by_cases h6 : pyLowerS (pyStripS (answers (st.gateCalls + 1))) = "ad"
              · simp [runStep, h1, h2, h3, h4, h5, h6]
              · by_cases h7 : isYes (pyLowerS (pyStripS (answers (st.gateCalls + 1)))) = true
                · simp [runStep, h1, h2, h3, h4, h5, h6, h7]
                · simp [runStep, h1, h2, h3, h4, h5, h6, h7]
            · simp [runStep, h1, h2, h3, h4, h5]
          · simp [runStep, h1, h2, h3, h4]

/-- The per-iteration facts lifted over the whole loop, plus: the final
execution count is the initial one plus the sum of the per-step deltas. -/
theorem runLoopGo_spec (pe : PolicyEngine) (cfg : RunCfg) (oracle : Nat → ModelStep)
    (answers : Nat → String) (exec : Nat → Nat → ActionResult) :
    ∀ (remaining stepIdx : Nat) (st : LoopState),
      (∀ rec ∈ (runLoopGo pe cfg oracle answers exec remaining stepIdx st).2.2,
        (rec.notDenied = true → rec.gateInvoked = true)
        ∧ (∀ a, rec.initialAnswer = some a → isYes a = false →
            rec.execDelta = 0 ∧ ∃ t, EventTag.approvalDenied t ∈ rec.stepEvents))
      ∧ (runLoopGo pe cfg oracle answers exec remaining stepIdx st).2.1.executed =
          st.executed +
            ((runLoopGo pe cfg oracle answers exec remaining stepIdx st).2.2.map
              StepRecord.execDelta).sum := by
  intro remaining
  induction remaining with
  | zero =>
    intro stepIdx st
    refine ⟨?_, ?_⟩ <;> simp [runLoopGo]
  | succ n ih =>
    intro stepIdx st
    obtain ⟨hs1, hs2, hs3⟩ :=
      runStep_record_spec pe cfg answers (exec stepIdx) stepIdx (oracle stepIdx) st
    rcases hres : runStep pe cfg answers (exec stepIdx) stepIdx (oracle stepIdx) st
      with ⟨rec, sr, st'⟩
    rw [hres] at hs1 hs2 hs3
    replace hs1 : rec.notDenied = true → rec.gateInvoked = true := hs1
    replace hs2 : ∀ a, rec.initialAnswer = some a → isYes a = false →
        rec.execDelta = 0 ∧ ∃ t, EventTag.approvalDenied t ∈ rec.stepEvents := hs2
    replace hs3 : st'.executed = st.executed + rec.execDelta := hs3
    cases sr with
    | done t =>
      have hrun : runLoopGo pe cfg oracle answers exec (n + 1) stepIdx st = (t, st', [rec]) := by
        simp [runLoopGo, hres]
      rw [hrun]
      refine ⟨?_, ?_⟩
      · intro r hr
        rw [List.mem_singleton] at hr
        subst hr
        exact ⟨hs1, hs2⟩
      · simpa using hs3
    | next =>
      have hrun : runLoopGo pe cfg oracle answers exec (n + 1) stepIdx st =
          ((runLoopGo pe cfg oracle answers exec n (stepIdx + 1) st').1,
           (runLoopGo pe cfg oracle answers exec n (stepIdx + 1) st').2.1,
           rec :: (runLoopGo pe cfg oracle answers exec n (stepIdx + 1) st').2.2) := by
        simp [runLoopGo, hres]
      rw [hrun]
      obtain ⟨ih1, ih2⟩ := ih (stepIdx + 1) st'
      refine ⟨?_, ?_⟩
      · intro r hr
        rcases List.mem_cons.mp hr with rfl | hr'
        · exact ⟨hs1, hs2⟩
        · exact ih1 r hr'
      · simp only [List.map_cons, List.sum_cons]
        rw [ih2, hs3]
        omega

/-- C3: in every run, a step whose proposal is neither always-denied nor
policy-denied reaches the initial approval gate (even when low-risk); a
step whose initial answer is negative performs zero tool executions and
records an `approval_denied` event; and the run's execution count is the
sum of the per-step counts, so negatively-approved steps contribute zero. -/
theorem C3_no_tool_without_initial_approval (pe : PolicyEngine) (cfg : RunCfg)
    (oracle : Nat → ModelStep) (answers : Nat → String)
    (exec : Nat → Nat → ActionResult) :
    (∀ rec ∈ (orchestratorRun pe cfg oracle answers exec).2.2,
      (rec.notDenied = true → rec.gateInvoked = true)
      ∧ (∀ a, rec.initialAnswer = some a → isYes a = false →
          rec.execDelta = 0 ∧ ∃ t, EventTag.approvalDenied t ∈ rec.stepEvents))
    ∧ (orchestratorRun pe cfg oracle answers exec).2.1.executed =
        ((orchestratorRun pe cfg oracle answers exec).2.2.map StepRecord.execDelta).sum := by
  obtain ⟨h1, h2⟩ := runLoopGo_spec pe cfg oracle answers exec cfg.maxSteps 1 ⟨[], [], 0, 0⟩
  exact ⟨h1, by simpa using h2⟩

/-- Witness for C3: in the scenario where step 1 proposes an allowlisted
low-risk shell action and the prompt is answered `n`, the step's record
shows the gate was invoked with no execution and a denial event. -/
theorem C3_no_tool_without_initial_approval_witness :
    demoRec.execDelta = 0 ∧ ∃ t, EventTag.approvalDenied t ∈ demoRec.stepEvents :=
  ((C3_no_tool_without_initial_approval demoPe demoCfg demoOracle demoAnswers demoExec).1
    demoRec (by decide)).2 "n" (by decide) (by decide)

/-- C4 fails on the code: after `approve` deposits an answer and before the
waiting worker resumes, the state has `pending ≠ null` with
`status = running` — the claimed equivalence does not hold at every
observable instant. -/
theorem C4_waiting_iff_pending_counterexample :
    ¬ (∀ s : RunState, Reachable s →
        (s.status = "waiting_approval" ↔ s.pending ≠ none)) := by
  intro hall
  have h1 : Reachable stateWaiting :=
    Reachable.register (initState "run-1") reqA (Reachable.init "run-1") rfl
  have h2 : Reachable stateApproved :=
    Reachable.approve stateWaiting "rid-1" "y" h1
  have hw := (hall stateApproved h2).mpr (by decide)
  exact absurd hw (by decide)

/-- C4 amended: at every reachable instant,
`status = waiting_approval` iff `pending ≠ null` and the deposited
`approval_answer` has not yet been consumed (is unset); the plain
equivalence with `pending ≠ null` is restored once the worker resumes. -/
theorem C4_waiting_iff_pending_unconsumed (s : RunState) (h : Reachable s) :
    s.status = "waiting_approval" ↔ (s.pending ≠ none ∧ s.approvalAnswer = none) := by
  obtain ⟨i1, i2, i3⟩ := reachable_runInv s h
  cases hph : s.phase with
  | idle =>
    obtain ⟨hp, hst⟩ := i1 hph
    rw [hst, hp]
    constructor
    · intro hc; exact absurd hc (by decide)
    · rintro ⟨hc, -⟩; exact absurd rfl hc
  | waiting =>
    obtain ⟨hp, hdisj⟩ := i2 hph
    rcases hdisj with ⟨ha, hst⟩ | ⟨ha, hst⟩
    · rw [hst, ha]
      exact ⟨fun _ => ⟨hp, rfl⟩, fun _ => rfl⟩
    · rw [hst]
      constructor
      · intro hc; exact absurd hc (by decide)
      · rintro ⟨-, hc⟩; exact absurd hc ha
  | done =>
    obtain ⟨hp, hdisj⟩ := i3 hph
    rw [hp]
    rcases hdisj with hst | hst <;> rw [hst]
    · constructor
      · intro hc; exact absurd hc (by decide)
      · rintro ⟨hc, -⟩; exact absurd rfl hc
    · constructor
      · intro hc; exact absurd hc (by decide)
      · rintro ⟨hc, -⟩; exact absurd rfl hc

/-- Witness for the amended C4: a freshly registered wait is in
`waiting_approval`, and the approved-but-not-yet-consumed state is not. -/
theorem C4_waiting_iff_pending_unconsumed_witness :
    stateWaiting.status = "waiting_approval" :=
  (C4_waiting_iff_pending_unconsumed stateWaiting
    (Reachable.register (initState "run-1") reqA (Reachable.init "run-1") rfl)).mpr
    ⟨by decide, rfl⟩

/-- C5 fails on the code: the answered worker clears `pending` without
resetting `approval_answer`, so a state with `pending = null` and the
deposited answer still set is observable. -/
theorem C5_answer_not_consumed_counterexample :
    ¬ (∀ s : RunState, Reachable s → s.pending = none → s.approvalAnswer = none) := by
  intro hall
  have h1 : Reachable stateWaiting :=
    Reachable.register (initState "run-1") reqA (Reachable.init "run-1") rfl
  have h2 : Reachable stateApproved :=
    Reachable.approve stateWaiting "rid-1" "y" h1
  have h3 : Reachable stateResumed :=
    Reachable.answered stateApproved h2 (by decide) (by decide)
  have := hall stateResumed h3 (by decide)
  exact absurd this (by decide)

/-- C5 amended: `approval_answer` is reset when the next approval request is
registered (atomically with setting `pending`), not when `pending` is
resolved: both resolutions leave `approval_answer` unchanged while clearing
`pending`, so an answered wait leaves the deposited answer set until the
next registration. -/
theorem C5_answer_reset_at_registration :
    (∀ (s : RunState) (req : PendingApproval),
        (registerApproval s req).approvalAnswer = none
        ∧ (registerApproval s req).pending = some req)
    ∧ (∀ s : RunState,
        (timeoutResolve s).snd.approvalAnswer = s.approvalAnswer
        ∧ (timeoutResolve s).snd.pending = none)
    ∧ (∀ s : RunState,
        (answerResolve s).snd.approvalAnswer = s.approvalAnswer
        ∧ (answerResolve s).snd.pending = none) :=
  ⟨fun _ _ => ⟨rfl, rfl⟩, fun _ => ⟨rfl, rfl⟩, fun _ => ⟨rfl, rfl⟩⟩

/-- The first binding of a looked-up key is replaced by its own value:
the run map is unchanged (helper for the rejected-`approve` cases). -/
theorem updateFirst_lookup_self (runs : List (String × RunState)) (key : String) (v : RunState)
    (h : runs.lookup key = some v) : updateFirst runs key v = runs := by
  induction runs with
  | nil => simp [List.lookup] at h
  | cons kv rest ih =>
    obtain ⟨k, w⟩ := kv
    by_cases hk : k = key
    · subst hk
      simp [List.lookup] at h
      unfold updateFirst
      rw [if_pos rfl, h]
    · have hbeq : (key == k) = false :=
        beq_eq_false_iff_ne.mpr (fun hh => hk hh.symm)
      rw [List.lookup, hbeq] at h
      unfold updateFirst
      rw [if_neg hk, ih h]

/-- C6: `approve` returns false — leaving the run map (and so the located
`RunState`) unchanged — when the run does not exist, when nothing is
pending, and when the supplied `request_id` differs from the pending one. -/
theorem C6_approve_validation (runs : List (String × RunState))
    (runId requestId decision : String) :
    (runs.lookup runId = none →
        managerApprove runs runId requestId decision = (false, runs))
    ∧ (∀ s, runs.lookup runId = some s → s.pending = none →
        managerApprove runs runId requestId decision = (false, runs))
    ∧ (∀ s p, runs.lookup runId = some s → s.pending = some p →
        p.requestId ≠ requestId →
        managerApprove runs runId requestId decision = (false, runs)) := by
  refine ⟨?_, ?_, ?_⟩
  · intro hnone; unfold managerApprove; rw [hnone]
  · intro s hs hp
    have hop : approveOp s requestId decision = (false, s) := by
      simp [approveOp, hp]
    simp [managerApprove, hs, hop, updateFirst_lookup_self runs runId s hs]
  · intro s p hs hp hrid
    have hop : approveOp s requestId decision = (false, s) := by
      simp [approveOp, hp, hrid]
    simp [managerApprove, hs, hop, updateFirst_lookup_self runs runId s hs]

/-- Witness for C6: a stale `request_id` and a missing run are both
rejected with the map unchanged. -/
theorem C6_approve_validation_witness :
    managerApprove [("run-1", stateWaiting)] "run-1" "stale-id" "y" =
      (false, [("run-1", stateWaiting)])
    ∧ managerApprove [] "missing" "rid-1" "y" = (false, []) :=
  ⟨(C6_approve_validation [("run-1", stateWaiting)] "run-1" "stale-id" "y").2.2
      stateWaiting reqA (by decide) (by decide) (by decide),
   (C6_approve_validation [] "missing" "rid-1" "y").1 rfl⟩

/-- C7: a wait with no deposited answer resolves at the fixed 3600-second
timeout to the deny decision `"n"`, leaving `status = running`,
`pending = null`, and an `approval_timeout` event appended. -/
theorem C7_timeout_resolution (s : RunState)
    (hw : s.phase = .waiting) (hnoAnswer : s.approvalAnswer = none) :
    waitTimeoutSeconds = 3600
    ∧ (timeoutResolve s).fst = "n"
    ∧ (timeoutResolve s).snd.status = "running"
    ∧ (timeoutResolve s).snd.pending = none
    ∧ (timeoutResolve s).snd.events =
        s.events ++ [WebEvent.approvalTimeout (pendingRequestId s)] :=
  ⟨rfl, rfl, rfl, rfl, rfl⟩

/-- Witness for C7: the registered-and-never-answered wait resolves to the
deny decision with the run back to `running`. -/
theorem C7_timeout_resolution_witness :
    (timeoutResolve stateWaiting).fst = "n"
    ∧ (timeoutResolve stateWaiting).snd.status = "running"
    ∧ (timeoutResolve stateWaiting).snd.pending = none :=
  ⟨(C7_timeout_resolution stateWaiting rfl rfl).2.1,
   (C7_timeout_resolution stateWaiting rfl rfl).2.2.1,
   (C7_timeout_resolution stateWaiting rfl rfl).2.2.2.1⟩

/-- C8 fails on the code: `_run_worker` calls `Orchestrator.run` with the
keyword `structured_approve_fn`, which `run` (parameters `session`, `cfg`,
`input_fn`) does not accept, so Python raises `TypeError` at the call and
the worker's `except` marks every run `failed` — no approval request is
ever registered and no run reaches `completed`. -/
theorem C8_worker_signature_mismatch :
    workerCallRaisesTypeError = true
    ∧ (runWorker (initState "run-1") "done").status = "failed"
    ∧ ¬ (runWorker (initState "run-1") "done").status = "completed"
    ∧ (runWorker (initState "run-1") "done").pending = none
    ∧ ((runWorker (initState "run-1") "done").events.any
        (fun e => match e with
          | WebEvent.approvalRequested _ => true
          | _ => false)) = false := by
  decide

/-- C9: the retry loop makes at most `1 + max_retries` execution attempts,
re-executes only after a failing result with a retryable error tag, returns
the last execution's result, and returns a non-retryable first failure
after exactly one attempt. -/
theorem C9_retry_budget_and_eligibility (exec : Nat → ActionResult) (maxRetries : Nat) :
    (executeWithRetries exec maxRetries).fst + 1 ≤ 1 + maxRetries
    ∧ (executeWithRetries exec maxRetries).snd = exec (executeWithRetries exec maxRetries).fst
    ∧ (∀ i, i < (executeWithRetries exec maxRetries).fst →
        (exec i).ok = false ∧ isRetryable (exec i).errorType = true)
    ∧ ((exec 0).ok = false → isRetryable (exec 0).errorType = false →
        (executeWithRetries exec maxRetries).fst = 0
        ∧ (executeWithRetries exec maxRetries).snd = exec 0) := by
  obtain ⟨h1, h2, h3, h4, h5⟩ := retryGo_spec exec maxRetries 0
  refine ⟨by unfold executeWithRetries; omega, h3, fun i hik => h4 i (Nat.zero_le i) hik, ?_⟩
  intro hok hnr
  have h0 : (retryGo exec 0 (exec 0) maxRetries).fst = 0 :=
    h5 (by rw [hok, hnr]; rfl)
  exact ⟨h0, by unfold executeWithRetries; rw [h3, h0]⟩

/-- Witness for C9: a tool failing with `invalid_args` (non-retryable) is
attempted exactly once even with a retry budget of 3, and its result is the
first execution's. -/
theorem C9_retry_budget_and_eligibility_witness :
    (executeWithRetries (fun _ => ⟨false, "", "", some "invalid_args", none⟩) 3).fst = 0
    ∧ (executeWithRetries (fun _ => ⟨false, "", "", some "invalid_args", none⟩) 3).snd =
        ⟨false, "", "", some "invalid_args", none⟩ :=
  (C9_retry_budget_and_eligibility (fun _ => ⟨false, "", "", some "invalid_args", none⟩) 3).2.2.2
    rfl rfl

/-- C10: `ShellTool.run` re-enforces the allowlist at execution time: a
command whose first `shlex` token (lowercased) is not allowed yields
`ok = false` with tag `policy_denied`, for every subprocess behaviour (the
result does not depend on the subprocess oracle, which is never consulted);
`policy_denied` is not retryable, so the retry loop stops after one attempt. -/
theorem C10_shell_tool_allowlist (tool : ShellToolCfg) (command : String)
    (p0 : List Char) (rest : List (List Char))
    (subproc : List (List Char) → SubprocessOutcome)
    (hparts : shlexSplitNonPosix command.data = some (p0 :: rest))
    (hdeny : pyLower p0 ∉ tool.allowedCommands) :
    shellToolRun tool command subproc =
      ⟨false, "", "Command '" ++ String.mk (pyLower p0) ++ "' not allowed",
       some "policy_denied", none⟩
    ∧ isRetryable (some "policy_denied") = false
    ∧ ∀ maxRetries,
        (executeWithRetries (fun _ => shellToolRun tool command subproc) maxRetries).fst = 0 := by
  have hnonempty : command.data.isEmpty = false := by
    cases hd : command.data with
    | nil =>
      rw [hd] at hparts
      exact absurd hparts (by simp [shlexSplitNonPosix, ShlexState.mk, List.foldl])
    | cons c cs => rfl
  have hrun : shellToolRun tool command subproc =
      ⟨false, "", "Command '" ++ String.mk (pyLower p0) ++ "' not allowed",
       some "policy_denied", none⟩ := by
    unfold shellToolRun
    rw [hnonempty]
    simp only [Bool.false_eq_true, if_false]
    rw [hparts]
    exact if_neg hdeny
  refine ⟨hrun, rfl, ?_⟩
  intro maxRetries
  have h5 := (retryGo_spec (fun _ => shellToolRun tool command subproc) maxRetries 0).2.2.2.2
  exact h5 (by rw [hrun]; rfl)

/-- Witness for C10: with allowlist `{ls}`, the command `rm -rf /` is denied
by the tool itself with `policy_denied` and one attempt. -/
theorem C10_shell_tool_allowlist_witness :
    shellToolRun ⟨"/work", ["ls".data]⟩ "rm -rf /" (fun _ => .completed 0 "" "") =
      ⟨false, "", "Command '" ++ String.mk (pyLower "rm".data) ++ "' not allowed",
       some "policy_denied", none⟩
    ∧ (executeWithRetries
        (fun _ => shellToolRun ⟨"/work", ["ls".data]⟩ "rm -rf /" (fun _ => .completed 0 "" ""))
        1).fst = 0 :=
  ⟨(C10_shell_tool_allowlist ⟨"/work", ["ls".data]⟩ "rm -rf /" "rm".data ["-rf".data, "/".data]
      (fun _ => .completed 0 "" "") (by decide) (by decide)).1,
   (C10_shell_tool_allowlist ⟨"/work", ["ls".data]⟩ "rm -rf /" "rm".data ["-rf".data, "/".data]
      (fun _ => .completed 0 "" "") (by decide) (by decide)).2.2 1⟩

/-- C1: a shell proposal whose command (stripped, compared case-insensitively)
matches one of the fixed destructive-pattern signatures is denied by
`PolicyEngine.evaluate`, for every allowlist and every risk level. -/
theorem C1_blocked_patterns_denied (eng : PolicyEngine) (p : ActionProposal)
    (htool : p.toolName = "shell")
    (hmatch : (BLOCKED_SHELL_PATTERNS.any
        fun bp => reSearch bp.toks (pyLower (pyStrip (getCommandArg p.args)))) = true) :
    (eng.evaluate p).status = .deny := by
  obtain ⟨bp, hbpmem, hbp⟩ := List.any_eq_true.mp hmatch
  unfold PolicyEngine.evaluate
  rw [if_pos htool]
  unfold evaluateShell
  by_cases hcmd : (pyStrip (getCommandArg p.args)).isEmpty = true
  · rw [if_pos hcmd]
  · rw [if_neg hcmd]
    by_cases htok : pyLower ((pySplit (pyStrip (getCommandArg p.args))).headD []) ∈
        eng.allowedShellCommands
    · rw [if_pos htok]
      cases hfind : BLOCKED_SHELL_PATTERNS.find?
          (fun bp => reSearch bp.toks (pyLower (pyStrip (getCommandArg p.args)))) with
      | none => exact absurd hbp (List.find?_eq_none.mp hfind bp hbpmem)
      | some bp' => rfl
    · rw [if_neg htok]

/-- Witness for C1: `rm -rf /` with `rm` allowlisted and low risk is denied. -/
theorem C1_blocked_patterns_denied_witness :
    (PolicyEngine.evaluate ⟨["work"], ["rm".data, "ls".data]⟩
      ⟨"shell", "cleanup", [("command", "rm -rf /")], .low⟩).status = .deny :=
  C1_blocked_patterns_denied _ _ rfl (by decide)

/-- C2: a file proposal with an empty or missing `path` is denied, and one
whose resolved path is neither the root nor a descendant of it is denied. -/
theorem C2_file_path_containment (eng : PolicyEngine) (p : ActionProposal)
    (htool : p.toolName = "file") :
    ((p.args.lookup "path" = none ∨ p.args.lookup "path" = some "") →
       (eng.evaluate p).status = .deny)
    ∧ (∀ pv, p.args.lookup "path" = some pv → pv ≠ "" →
       isUnderRoot eng.rootDir (resolvePath eng.rootDir pv) = false →
       (eng.evaluate p).status = .deny) := by
  unfold PolicyEngine.evaluate
  rw [if_neg (by rw [htool]; decide), if_pos htool]
  unfold evaluateFile
  constructor
  · rintro (hmiss | hempty)
    · simp [hmiss]
    · simp [hempty]
  · intro pv hpv hne hout
    simp [hpv, hne, hout]

/-- Witness for C2: with root `/work`, the missing path and the traversal
`../etc/passwd` are both denied. -/
theorem C2_file_path_containment_witness :
    ((PolicyEngine.evaluate ⟨["work"], []⟩ ⟨"file", "read", [], .low⟩).status = .deny)
    ∧ ((PolicyEngine.evaluate ⟨["work"], []⟩
        ⟨"file", "read", [("path", "../etc/passwd")], .low⟩).status = .deny) :=
  ⟨(C2_file_path_containment ⟨["work"], []⟩ ⟨"file", "read", [], .low⟩ rfl).1
      (Or.inl (by decide)),
   (C2_file_path_containment ⟨["work"], []⟩
      ⟨"file", "read", [("path", "../etc/passwd")], .low⟩ rfl).2
      "../etc/passwd" (by decide) (by decide) (by decide)⟩

end AgentSpec
